import Mathlib

/-!
Verification of `PyBioMed/PyGetMol/Getmol.py`.

The module is embedded shallowly.  Outward effects (HTTP requests, file
writes, reads, removals, and hand-offs to the wrapped chemistry toolkits)
are recorded in an explicit event trace; the working directory is an
association list from file names to contents; the third-party toolkits
(RDKit, OpenBabel/pybel) and the network are an oracle `Env`, since their
behaviour is external to this repository.  Each Python function becomes a
Lean function from the oracle, the working directory and its argument to
an `Output`: the trace of events it performed, the directory it leaves
behind, and either a returned value or the Python exception it raises.
-/

/-- Python exceptions that the embedded code can raise. -/
inductive PyErr where
  | nameError (msg : String)
  | valueError (msg : String)
  | typeError (msg : String)
  | indexError (msg : String)
  | osError (msg : String)
  | ioError (msg : String)
deriving DecidableEq

/-- Outward effects a call performs, in order. -/
inductive Event where
  | urlopen (url : String)
  | fileWrite (name content : String)
  | fileRead (name : String)
  | fileRemove (name : String)
  | parseMol (content : String)
deriving DecidableEq

/-- The working directory: file name to content. -/
abbrev FS := List (String × String)

def fsGet (fs : FS) (n : String) : Option String :=
  (fs.find? (fun e => e.1 == n)).map (fun e => e.2)

def fsErase (fs : FS) (n : String) : FS :=
  fs.filter (fun e => e.1 != n)

def fsWrite (fs : FS) (n c : String) : FS :=
  (n, c) :: fsErase fs n

def fsEraseAll (fs : FS) (ns : List String) : FS :=
  ns.foldl (fun a n => fsErase a n) fs

/--
The external world: the network and the wrapped chemistry toolkits.
`M` is RDKit molecule objects, `PM` is pybel molecule objects.
`http u` is the list of (decoded) lines the page at `u` serves;
`molFromMolBlock` is RDKit parsing of MOL/SDF file content (None on
failure); `molFromSmiles` is `Chem.MolFromSmiles`; `molToSmiles b m` is
`Chem.MolToSmiles(m, isomericSmiles=b)`; `sdMolSupplier` is
`Chem.SDMolSupplier` applied to file content; `pybelReadString f s` is
`pybel.readstring(f, s)` (None when it raises); `pybelWrite t f` is
`t.write(f)`.
-/
structure Env (M PM : Type) where
  http : String → List String
  molFromMolBlock : String → Option M
  molFromSmiles : String → Option M
  molToSmiles : Bool → M → String
  sdMolSupplier : String → List (Option M)
  pybelReadString : String → String → Option PM
  pybelWrite : PM → String → String

/-- The outcome of one call: its event trace, the directory it leaves,
and its returned value or raised exception. -/
structure Output (α : Type) where
  trace : List Event
  fs : FS
  result : Except PyErr α

/-- Python whitespace as removed by `str.strip()` (ASCII part). -/
def isPySpace (c : Char) : Bool :=
  c == ' ' || c == '\t' || c == '\n' || c == '\r' || c == '\x0b' || c == '\x0c'

/-- `str.strip()` on the character list: drop whitespace at both ends. -/
def pstripList (l : List Char) : List Char :=
  List.rdropWhile isPySpace (l.dropWhile isPySpace)

/-- Python `s.strip()`. -/
def pstrip (s : String) : String :=
  String.mk (pstripList s.data)

/-- The string consists of whitespace only. -/
def wsOnly (s : String) : Bool :=
  s.data.all isPySpace

/-- Is `sep` a prefix of the character list? -/
def charsStartWith : List Char → List Char → Bool
  | _, [] => true
  | [], _ :: _ => false
  | a :: as, b :: bs => a == b && charsStartWith as bs

/-- Python `s.split(sep)` for a nonempty `sep`, scanning left to right
and cutting at each leftmost non-overlapping occurrence.  The fuel is
the remaining input length plus one, so it never runs out. -/
def pysplitAux (sep : List Char) : Nat → List Char → List Char → List (List Char)
  | _, acc, [] => [acc.reverse]
  | 0, acc, l => [acc.reverse ++ l]
  | fuel + 1, acc, a :: as =>
    if charsStartWith (a :: as) sep then
      acc.reverse :: pysplitAux sep fuel [] (List.drop sep.length (a :: as))
    else
      pysplitAux sep fuel (a :: acc) as

/-- Python `s.split(sep)` (nonempty separator). -/
def pysplit (s sep : String) : List String :=
  (pysplitAux sep.data (s.data.length + 1) [] s.data).map String.mk

/-- Python `s.startswith(pre)`. -/
def pystartswith (s pre : String) : Bool :=
  charsStartWith s.data pre.data

/-- Python `sep in s` for a nonempty separator. -/
def containsSub (s sep : String) : Bool :=
  2 ≤ (pysplit s sep).length

/-! ## The local readers (Getmol.py lines 38-133) -/

variable {M PM : Type}

/-- `Chem.MolFromMolFile(filename)`: RDKit reads the file (OSError when
it does not exist) and parses its content, `None` on parse failure. -/
def chemMolFromMolFile (env : Env M PM) (fs : FS) (filename : String) :
    Except PyErr (Option M) :=
  match fsGet fs filename with
  | none => .error (.osError filename)
  | some c => .ok (env.molFromMolBlock c)

/-- `ReadMolFromSDF(filename)`: returns `Chem.SDMolSupplier(filename)`. -/
def ReadMolFromSDF (env : Env M PM) (fs : FS) (filename : String) :
    Except PyErr (List (Option M)) :=
  match fsGet fs filename with
  | none => .error (.osError filename)
  | some c => .ok (env.sdMolSupplier c)

/-- `ReadMolFromMOL(filename)`: returns `Chem.MolFromMolFile(filename)`. -/
def ReadMolFromMOL (env : Env M PM) (fs : FS) (filename : String) :
    Except PyErr (Option M) :=
  chemMolFromMolFile env fs filename

/-- `ReadMolFromSmile(smi)`: returns `Chem.MolFromSmiles(smi.strip())`. -/
def ReadMolFromSmile (env : Env M PM) (smi : String) : Option M :=
  env.molFromSmiles (pstrip smi)

/-- `ReadMolFromInchi(inchi)`: `pybel.readstring("inchi", inchi)`, then
`temp.write("smi")`, then `Chem.MolFromSmiles(smi.strip())`. -/
def ReadMolFromInchi (env : Env M PM) (inchi : String) :
    Except PyErr (Option M) :=
  match env.pybelReadString "inchi" inchi with
  | none => .error (.ioError "pybel.readstring failed")
  | some temp =>
    let smi := env.pybelWrite temp "smi"
    .ok (env.molFromSmiles (pstrip smi))

/-- `ReadMolFromMol(filename)`: returns `Chem.MolFromMolFile(filename)`,
a duplicate of `ReadMolFromMOL`. -/
def ReadMolFromMol (env : Env M PM) (fs : FS) (filename : String) :
    Except PyErr (Option M) :=
  chemMolFromMolFile env fs filename

/-! ## The web fetchers (Getmol.py lines 138-279) -/

def casUrl (casid : String) : String :=
  "http://www.chemnet.com/cas/supplier.cgi?terms=" ++ casid ++ "&l=&exact=dict"

def ncbiUrl (cid : String) : String :=
  "http://pubchem.ncbi.nlm.nih.gov/summary/summary.cgi?cid=" ++ cid ++ "&disopt=SaveSDF"

def drugbankUrl (dbid : String) : String :=
  "http://www.drugbank.ca/drugs/" ++ dbid ++ ".sdf"

def keggUrl (kid : String) : String :=
  "http://www.genome.jp/dbget-bin/www_bget?-f+m+drug+" ++ kid

/-- The scraping loop of `GetMolFromCAS` (lines 157-163): scan the page
lines for the first whose `<td align="left">` cell starts with `InChI`;
a line containing `InChI=` but no `<td align="left">` separator makes
`k[1]` raise IndexError. -/
def casScan : List String → Except PyErr (Option String)
  | [] => .ok none
  | i :: rest =>
    if containsSub i "InChI=" then
      let k := pysplit i "<td align=\"left\">"
      if 2 ≤ k.length then
        let kk0 := (pysplit (k.getD 1 "") "</td>\r\n").headD ""
        if pystartswith kk0 "InChI" then
          .ok (some (pstrip kk0))
        else
          casScan rest
      else
        .error (.indexError "list index out of range")
    else
      casScan rest

/-- `GetMolFromCAS(casid)` (lines 138-176).  It strips the ID, opens the
chemnet page (one `urlopen`), scrapes it for an InChI string, raising
ValueError when none is found.  It then runs `pybel.Molecule(res)` where
`res` is the InChI *string*: `pybel.Molecule.__init__` just stores its
argument in `self.OBMol` (a `str` has no `_exchange` attribute), so the
following `mol.write("smi")` hands a `str` to
`OBConversion.WriteString`, which rejects it with a TypeError.  The call
therefore never returns. -/
def GetMolFromCAS (env : Env M PM) (fs : FS) (casid : String) :
    Output String :=
  let c := pstrip casid
  let link := casUrl c
  let temp := env.http link
  { trace := [.urlopen link]
    fs := fs
    result :=
      match casScan temp with
      | .error e => .error e
      | .ok none =>
        .error (.valueError ("InChI string not found for CAS ID " ++ c ++ "."))
      | .ok (some _) =>
        .error (.typeError "OBConversion.WriteString expects an OBMol, got str") }

/-- `GetMolFromNCBI(cid)` (lines 185-203).  It strips the ID and opens
the PubChem page (one `urlopen`), then executes
`f = file("temp.sdf", "w")`: the Python 2 builtin `file` does not exist
under Python 3 (and the module only imports under Python 3, since
`GetMolFromCAS` contains an f-string literal), so the call raises
NameError before touching the working directory. -/
def GetMolFromNCBI (env : Env M PM) (fs : FS) (cid : String) :
    Output String :=
  let c := pstrip cid
  let link := ncbiUrl c
  let _temp := env.http link
  { trace := [.urlopen link]
    fs := fs
    result := .error (.nameError "name file is not defined") }

/-- `GetMolFromDrugbank(dbid)` (lines 206-247).  It strips the ID,
downloads the SDF (one `urlopen`), writes the decoded content to
`temp.sdf`, checks `os.path.getsize("temp.sdf") == 0` (a read of the
file just written; ValueError when empty), parses it with
`Chem.MolFromMolFile("temp.sdf")` (a second read; ValueError when RDKit
returns None), and only on that success path converts to isomeric
SMILES and removes `temp.sdf`. -/
def GetMolFromDrugbank (env : Env M PM) (fs : FS) (dbid : String) :
    Output String :=
  let d := pstrip dbid
  let link := drugbankUrl d
  let content := String.join (env.http link)
  let fs1 := fsWrite fs "temp.sdf" content
  let tr0 : List Event := [.urlopen link, .fileWrite "temp.sdf" content]
  match fsGet fs1 "temp.sdf" with
  | none =>
    { trace := tr0 ++ [.fileRead "temp.sdf"], fs := fs1
      result := .error (.osError "temp.sdf") }
  | some sz =>
    if sz.length = 0 then
      { trace := tr0 ++ [.fileRead "temp.sdf"], fs := fs1
        result := .error (.valueError "The downloaded SDF file is empty or corrupted.") }
    else
      match fsGet fs1 "temp.sdf" with
      | none =>
        { trace := tr0 ++ [.fileRead "temp.sdf", .fileRead "temp.sdf"], fs := fs1
          result := .error (.osError "temp.sdf") }
      | some c2 =>
        match env.molFromMolBlock c2 with
        | none =>
          { trace := tr0 ++ [.fileRead "temp.sdf", .fileRead "temp.sdf", .parseMol c2]
            fs := fs1
            result := .error (.valueError "RDKit could not load the molecule from the SDF file.") }
        | some m =>
          { trace := tr0 ++ [.fileRead "temp.sdf", .fileRead "temp.sdf", .parseMol c2,
              .fileRemove "temp.sdf"]
            fs := fsErase fs1 "temp.sdf"
            result := .ok (env.molToSmiles true m) }

/-- `GetMolFromKegg(kid)` (lines 249-279).  `link = urlopen(url)` opens
the KEGG page (one `urlopen`); the next statement
`Request(link, headers=...)` passes that HTTPResponse object where a URL
string is expected: `urllib.parse.unwrap` coerces it with `str()`,
producing an object repr with no `scheme:` part, so `Request._parse`
raises `ValueError: unknown url type`.  The second `urlopen`, the write
to `temp.sdf` and the read of `temp.mol` further down are never
reached. -/
def GetMolFromKegg (env : Env M PM) (fs : FS) (kid : String) :
    Output String :=
  let ID := kid
  let link := keggUrl ID
  let _rsp := env.http link
  { trace := [.urlopen link]
    fs := fs
    result := .error (.valueError "unknown url type") }

/-! ## Helpers over traces and results -/

/-- Number of HTTP connections opened in a trace. -/
def countUrlopen (tr : List Event) : Nat :=
  (tr.filter fun e => match e with | .urlopen _ => true | _ => false).length

/-- File names a trace writes, reads or removes. -/
def touchedFiles (tr : List Event) : List String :=
  tr.filterMap fun e =>
    match e with
    | .fileWrite n _ => some n
    | .fileRead n => some n
    | .fileRemove n => some n
    | _ => none

/-- File names a trace writes. -/
def writtenFiles (tr : List Event) : List String :=
  tr.filterMap fun e =>
    match e with
    | .fileWrite n _ => some n
    | _ => none

/-- Contents handed to the RDKit MOL-file parser in a trace. -/
def parsedContents (tr : List Event) : List String :=
  tr.filterMap fun e =>
    match e with
    | .parseMol c => some c
    | _ => none

deriving instance DecidableEq for Except

/-- The call raised a ValueError. -/
def isValueError : Except PyErr α → Bool
  | .error (.valueError _) => true
  | _ => false

/-- The call returned normally. -/
def isOkResult : Except PyErr α → Bool
  | .ok _ => true
  | _ => false

/-- The content `GetMolFromDrugbank` downloads for a given ID. -/
def dlDrugbank (env : Env M PM) (dbid : String) : String :=
  String.join (env.http (drugbankUrl (pstrip dbid)))

/-! ## Concrete oracles for closed evaluations -/

/-- A sample MOL block served by the fake network. -/
def molLine : String := "MOLBLOCK\n"

/-- A chemnet page line whose `<td align="left">` cell holds an InChI. -/
def casPage : String := "x<td align=\"left\">InChI=1S/H2O/h1H2</td>\r\nrest"

/-- Concrete oracle: the chemnet URL for CAS 50-12-4 serves a page with
a well-formed InChI cell, every other URL serves a parseable MOL block,
which RDKit parses to molecule `7`, whose isomeric SMILES is `CCO`. -/
def envRich : Env Nat Nat where
  http := fun u => if u = casUrl "50-12-4" then [casPage] else [molLine]
  molFromMolBlock := fun c => if c = molLine then some 7 else none
  molFromSmiles := fun s => some s.length
  molToSmiles := fun _ m => if m = 7 then "CCO" else "C"
  sdMolSupplier := fun _ => [some 7]
  pybelReadString := fun _ s => some s.length
  pybelWrite := fun t _ => if t = 5 then "OCC" else "C"

/-- Same toolkits as `envRich`, dead network. -/
def envNoNet : Env Nat Nat :=
  { envRich with http := fun _ => [] }

/-- Same as `envRich` but RDKit fails to parse everything. -/
def envBadParse : Env Nat Nat :=
  { envRich with molFromMolBlock := fun _ => none }

/-- The working directory before the C4 counterexample call: a leftover
`temp.sdf` already exists. -/
def fsPre : FS := [("temp.sdf", "leftover")]

/-! ## Lemmas about the embedded `str.strip()` -/

theorem dropWhile_head_false (p : Char → Bool) :
    ∀ (l m : List Char) (c : Char), l.dropWhile p = c :: m → p c = false := by
  intro l
  induction l with
  | nil => intro m c h; simp [List.dropWhile] at h
  | cons a t ih =>
    intro m c h
    rw [List.dropWhile_cons] at h
    split at h
    · exact ih m c h
    · rename_i ha
      cases h
      simpa using ha

theorem dropWhile_pstripList (l : List Char) :
    (pstripList l).dropWhile isPySpace = pstripList l := by
  unfold pstripList
  obtain ⟨t, ht⟩ := List.rdropWhile_prefix isPySpace (l.dropWhile isPySpace)
  cases hr : List.rdropWhile isPySpace (l.dropWhile isPySpace) with
  | nil => simp
  | cons c r =>
    rw [hr] at ht
    have hc : isPySpace c = false :=
      dropWhile_head_false isPySpace l (r ++ t) c ht.symm
    simp [List.dropWhile_cons, hc]

theorem pstripList_idem (l : List Char) :
    pstripList (pstripList l) = pstripList l := by
  show List.rdropWhile isPySpace ((pstripList l).dropWhile isPySpace) = pstripList l
  rw [dropWhile_pstripList]
  unfold pstripList
  exact List.rdropWhile_idempotent _ _

theorem rdropWhile_append_ws (y qd : List Char) (hq : ∀ c ∈ qd, isPySpace c) :
    List.rdropWhile isPySpace (y ++ qd) = List.rdropWhile isPySpace y := by
  unfold List.rdropWhile
  rw [List.reverse_append, List.dropWhile_append_of_pos]
  intro a ha
  exact hq a (List.mem_reverse.mp ha)

theorem pstripList_pad (pd x qd : List Char) (hp : ∀ c ∈ pd, isPySpace c)
    (hq : ∀ c ∈ qd, isPySpace c) :
    pstripList (pd ++ x ++ qd) = pstripList x := by
  unfold pstripList
  rw [List.append_assoc, List.dropWhile_append_of_pos hp]
  rcases hx : x.dropWhile isPySpace with _ | ⟨c, r⟩
  · rw [List.dropWhile_append, hx]
    simp only [List.isEmpty_nil, if_true]
    rw [List.dropWhile_eq_nil_iff.mpr hq]
  · rw [List.dropWhile_append, hx,
      if_neg (by simp : ¬((c :: r).isEmpty = true))]
    exact rdropWhile_append_ws (c :: r) qd hq

theorem data_append (s t : String) : (s ++ t).data = s.data ++ t.data := by
  cases s; cases t; rfl

theorem pstrip_idem (s : String) : pstrip (pstrip s) = pstrip s := by
  unfold pstrip
  rw [show (String.mk (pstripList s.data)).data = pstripList s.data from rfl,
    pstripList_idem]

theorem pstrip_pad (p s q : String) (hp : wsOnly p = true) (hq : wsOnly q = true) :
    pstrip (p ++ s ++ q) = pstrip s := by
  unfold pstrip
  rw [data_append, data_append, pstripList_pad]
  · exact fun c hc => (List.all_eq_true.mp hp) c hc
  · exact fun c hc => (List.all_eq_true.mp hq) c hc

/-! ## Lemmas about the working directory -/

theorem fsGet_fsWrite (fs : FS) (n c : String) :
    fsGet (fsWrite fs n c) n = some c := by
  simp [fsGet, fsWrite]

theorem fsErase_fsWrite (fs : FS) (n c : String) :
    fsErase (fsWrite fs n c) n = fsErase fs n := by
  simp only [fsWrite, fsErase, List.filter_cons, bne_self_eq_false,
    Bool.false_eq_true, if_false, List.filter_filter, Bool.and_self]

/-- Case analysis of `GetMolFromDrugbank`: the reads of `temp.sdf` see
exactly the content just written. -/
theorem GetMolFromDrugbank_eq (env : Env M PM) (fs : FS) (dbid : String) :
    GetMolFromDrugbank env fs dbid =
      (let d := pstrip dbid
       let link := drugbankUrl d
       let content := String.join (env.http link)
       let fs1 := fsWrite fs "temp.sdf" content
       let tr0 : List Event := [.urlopen link, .fileWrite "temp.sdf" content]
       if content.length = 0 then
         { trace := tr0 ++ [.fileRead "temp.sdf"], fs := fs1
           result := .error (.valueError "The downloaded SDF file is empty or corrupted.") }
       else
         match env.molFromMolBlock content with
         | none =>
           { trace := tr0 ++ [.fileRead "temp.sdf", .fileRead "temp.sdf", .parseMol content]
             fs := fs1
             result := .error (.valueError "RDKit could not load the molecule from the SDF file.") }
         | some m =>
           { trace := tr0 ++ [.fileRead "temp.sdf", .fileRead "temp.sdf", .parseMol content,
               .fileRemove "temp.sdf"]
             fs := fsErase fs "temp.sdf"
             result := .ok (env.molToSmiles true m) }) := by
  unfold GetMolFromDrugbank
  simp only [fsGet_fsWrite, fsErase_fsWrite]

/-- C1: for every ID string, each of the four web-fetch functions
performs exactly one `urlopen` during the call.  (`GetMolFromKegg`
contains a second `urlopen` call site, but the `Request` constructor
raises on the response object of the first before it is reached.) -/
theorem c1_each_fetcher_opens_one_connection (M PM : Type) (env : Env M PM)
    (fs : FS) (s : String) :
    countUrlopen (GetMolFromCAS env fs s).trace = 1 ∧
    countUrlopen (GetMolFromNCBI env fs s).trace = 1 ∧
    countUrlopen (GetMolFromDrugbank env fs s).trace = 1 ∧
    countUrlopen (GetMolFromKegg env fs s).trace = 1 := by
  refine ⟨rfl, rfl, ?_, rfl⟩
  simp only [GetMolFromDrugbank_eq]
  split
  · rfl
  · split <;> rfl

/-- C2: the functions share no state.  Dynamically, `GetMolFromCAS`,
`GetMolFromNCBI` and `GetMolFromKegg` touch no file at all (the latter
two abort before their file operations), `GetMolFromDrugbank` touches
only `temp.sdf`, and the value returned or exception raised by each
fetcher is independent of the prior state of the working directory, so
no call is affected by which functions ran before it. -/
theorem c2_no_shared_state (M PM : Type) (env : Env M PM)
    (fs fs2 : FS) (s : String) :
    touchedFiles (GetMolFromCAS env fs s).trace = [] ∧
    touchedFiles (GetMolFromNCBI env fs s).trace = [] ∧
    touchedFiles (GetMolFromKegg env fs s).trace = [] ∧
    (touchedFiles (GetMolFromDrugbank env fs s).trace).all
      (fun n => n == "temp.sdf") = true ∧
    (GetMolFromCAS env fs s).result = (GetMolFromCAS env fs2 s).result ∧
    (GetMolFromNCBI env fs s).result = (GetMolFromNCBI env fs2 s).result ∧
    (GetMolFromDrugbank env fs s).result = (GetMolFromDrugbank env fs2 s).result ∧
    (GetMolFromKegg env fs s).result = (GetMolFromKegg env fs2 s).result := by
  refine ⟨rfl, rfl, rfl, ?_, rfl, rfl, ?_, rfl⟩
  · simp only [GetMolFromDrugbank_eq]
    split
    · rfl
    · split <;> rfl
  · simp only [GetMolFromDrugbank_eq]
    by_cases h : (String.join (env.http (drugbankUrl (pstrip s)))).length = 0
    · simp only [if_pos h]
    · simp only [if_neg h]
      cases env.molFromMolBlock (String.join (env.http (drugbankUrl (pstrip s)))) <;> rfl


/-- C3 (code bug): `GetMolFromKegg` and `GetMolFromNCBI` never feed the
downloaded bytes to the chemistry toolkit.  On the ID from the module's
own self-test, and with the network serving a parseable MOL block, both
raise before any parser call: no content reaches the toolkit and no
file is even written (and as written, `GetMolFromKegg` would parse
`temp.mol` although it writes `temp.sdf`). -/
theorem c3_download_never_reaches_toolkit :
    parsedContents (GetMolFromKegg envRich [] "D02176").trace = [] ∧
    touchedFiles (GetMolFromKegg envRich [] "D02176").trace = [] ∧
    (GetMolFromKegg envRich [] "D02176").result =
      .error (.valueError "unknown url type") ∧
    parsedContents (GetMolFromNCBI envRich [] "2244").trace = [] ∧
    (GetMolFromNCBI envRich [] "2244").result =
      .error (.nameError "name file is not defined") :=
  ⟨rfl, rfl, rfl, rfl, rfl⟩


/-- C4 is false as stated: `GetMolFromDrugbank` can return successfully
while leaving the working directory different from what it was before
the call, because a pre-existing `temp.sdf` is overwritten and then
deleted. -/
theorem c4_counterexample_dir_not_restored :
    isOkResult (GetMolFromDrugbank envRich fsPre "DB00133").result = true ∧
    (GetMolFromDrugbank envRich fsPre "DB00133").fs ≠ fsPre :=
  ⟨rfl, by decide⟩

theorem fsGet_fsErase (fs : FS) (n : String) :
    fsGet (fsErase fs n) n = none := by
  have h : (fsErase fs n).find? (fun e => e.1 == n) = none := by
    rw [List.find?_eq_none]
    intro e he
    have h2 := (List.mem_filter.mp he).2
    simp only [bne_iff_ne, ne_eq] at h2
    simp [h2]
  unfold fsGet
  rw [h]
  rfl

/-- C4 (amended): after a web-fetch function returns successfully,
every temporary file it wrote during the call has been removed, and the
working directory equals its state before the call except that a
pre-existing file under one of those temporary names (`temp.sdf`) has
been overwritten and deleted. -/
theorem c4_amended_temp_files_removed (M PM : Type) (env : Env M PM)
    (fs : FS) (s : String) :
    (isOkResult (GetMolFromNCBI env fs s).result = true →
      (GetMolFromNCBI env fs s).fs =
        fsEraseAll fs (writtenFiles (GetMolFromNCBI env fs s).trace) ∧
      (writtenFiles (GetMolFromNCBI env fs s).trace).all
        (fun n => fsGet (GetMolFromNCBI env fs s).fs n == none) = true) ∧
    (isOkResult (GetMolFromDrugbank env fs s).result = true →
      (GetMolFromDrugbank env fs s).fs =
        fsEraseAll fs (writtenFiles (GetMolFromDrugbank env fs s).trace) ∧
      (writtenFiles (GetMolFromDrugbank env fs s).trace).all
        (fun n => fsGet (GetMolFromDrugbank env fs s).fs n == none) = true) ∧
    (isOkResult (GetMolFromKegg env fs s).result = true →
      (GetMolFromKegg env fs s).fs =
        fsEraseAll fs (writtenFiles (GetMolFromKegg env fs s).trace) ∧
      (writtenFiles (GetMolFromKegg env fs s).trace).all
        (fun n => fsGet (GetMolFromKegg env fs s).fs n == none) = true) := by
  refine ⟨?_, ?_, ?_⟩
  · intro h
    simp [GetMolFromNCBI, isOkResult] at h
  · simp only [GetMolFromDrugbank_eq]
    by_cases h0 : (String.join (env.http (drugbankUrl (pstrip s)))).length = 0
    · simp only [if_pos h0]
      intro h
      simp [isOkResult] at h
    · simp only [if_neg h0]
      cases hm : env.molFromMolBlock (String.join (env.http (drugbankUrl (pstrip s))))
      · intro h
        simp [isOkResult] at h
      · intro _
        constructor
        · rfl
        · simp [writtenFiles, fsGet_fsErase]
  · intro h
    simp [GetMolFromKegg, isOkResult] at h

/-- C5 (code bug): on well-formed IDs (those of the module's own
self-test) and with the network delivering well-formed pages, three of
the four fetchers terminate with an exception unrelated to their input:
`GetMolFromCAS` hands the scraped InChI string to `pybel.Molecule`
instead of `pybel.readstring` (TypeError), `GetMolFromNCBI` calls the
Python 2 builtin `file` (NameError), and `GetMolFromKegg` passes the
response object of its first `urlopen` to `Request` (ValueError). -/
theorem c5_fetchers_raise_unrelated_exceptions :
    (GetMolFromCAS envRich [] "50-12-4").result =
      .error (.typeError "OBConversion.WriteString expects an OBMol, got str") ∧
    (GetMolFromNCBI envRich [] "2244").result =
      .error (.nameError "name file is not defined") ∧
    (GetMolFromKegg envRich [] "D02176").result =
      .error (.valueError "unknown url type") ∧
    isOkResult (GetMolFromDrugbank envRich [] "DB00133").result = true := by
  refine ⟨by decide, rfl, rfl, by decide⟩

/-- C6: whenever a web-fetch function returns a string, that string is
the canonical SMILES the wrapped toolkit produces for the downloaded
molecule: `Chem.MolToSmiles(m, isomericSmiles=True)` of the parsed
download for the RDKit-based fetchers, `write("smi")` of a pybel
molecule for the pybel-based `GetMolFromCAS`. -/
theorem c6_returned_string_is_canonical_smiles (M PM : Type) (env : Env M PM)
    (fs : FS) (s r : String) :
    ((GetMolFromDrugbank env fs s).result = .ok r →
      ∃ m, env.molFromMolBlock (dlDrugbank env s) = some m ∧
        r = env.molToSmiles true m) ∧
    ((GetMolFromNCBI env fs s).result = .ok r →
      ∃ m, r = env.molToSmiles true m) ∧
    ((GetMolFromKegg env fs s).result = .ok r →
      ∃ m, r = env.molToSmiles true m) ∧
    ((GetMolFromCAS env fs s).result = .ok r →
      ∃ p, r = pstrip (env.pybelWrite p "smi")) := by
  refine ⟨?_, ?_, ?_, ?_⟩
  · simp only [GetMolFromDrugbank_eq]
    by_cases h0 : (String.join (env.http (drugbankUrl (pstrip s)))).length = 0
    · simp only [if_pos h0]
      intro h
      simp at h
    · simp only [if_neg h0]
      cases hm : env.molFromMolBlock (String.join (env.http (drugbankUrl (pstrip s))))
      · intro h
        simp at h
      · intro h
        simp only [Except.ok.injEq] at h
        exact ⟨_, by simpa [dlDrugbank] using hm, h.symm⟩
  · intro h
    simp [GetMolFromNCBI] at h
  · intro h
    simp [GetMolFromKegg] at h
  · intro h
    simp only [GetMolFromCAS] at h
    rcases hc : casScan (env.http (casUrl (pstrip s))) with e | o
    · rw [hc] at h
      simp at h
    · rcases o with _ | v
      · rw [hc] at h
        simp at h
      · rw [hc] at h
        simp at h

/-- Closed instance of C6 at a concrete oracle: `GetMolFromDrugbank`
returns, and its return value is the isomeric SMILES RDKit produces for
the downloaded MOL block. -/
theorem c6_returned_string_is_canonical_smiles_witness :
    (GetMolFromDrugbank envRich [] "DB00133").result = .ok "CCO" ∧
    ∃ m, envRich.molFromMolBlock (dlDrugbank envRich "DB00133") = some m ∧
      "CCO" = envRich.molToSmiles true m :=
  ⟨by decide,
    (c6_returned_string_is_canonical_smiles Nat Nat envRich [] "DB00133" "CCO").1
      (by decide)⟩

/-- Closed instance of C4 (amended): on a successful Drugbank call the
written temporary file is gone afterwards and the rest of the working
directory is untouched. -/
theorem c4_amended_temp_files_removed_witness :
    isOkResult (GetMolFromDrugbank envRich [("keep.txt", "k")] "DB00133").result = true ∧
    (GetMolFromDrugbank envRich [("keep.txt", "k")] "DB00133").fs =
      fsEraseAll [("keep.txt", "k")]
        (writtenFiles (GetMolFromDrugbank envRich [("keep.txt", "k")] "DB00133").trace) ∧
    (writtenFiles (GetMolFromDrugbank envRich [("keep.txt", "k")] "DB00133").trace).all
      (fun n => fsGet (GetMolFromDrugbank envRich [("keep.txt", "k")] "DB00133").fs n
        == none) = true :=
  ⟨by decide,
    (c4_amended_temp_files_removed Nat Nat envRich [("keep.txt", "k")] "DB00133").2.1
      (by decide)⟩

/-- C7: each of the four local readers returns exactly the object the
wrapped toolkit produces on its input, and its outcome depends on
nothing but the toolkit functions it wraps (in particular not on the
network oracle). -/
theorem c7_readers_defer_to_toolkits (M PM : Type) (env env2 : Env M PM)
    (fs : FS) (f smi inchi c : String) :
    (fsGet fs f = some c → ReadMolFromSDF env fs f = .ok (env.sdMolSupplier c)) ∧
    (fsGet fs f = some c → ReadMolFromMOL env fs f = .ok (env.molFromMolBlock c)) ∧
    ReadMolFromSmile env smi = env.molFromSmiles (pstrip smi) ∧
    (∀ t, env.pybelReadString "inchi" inchi = some t →
      ReadMolFromInchi env inchi =
        .ok (env.molFromSmiles (pstrip (env.pybelWrite t "smi")))) ∧
    (env.sdMolSupplier = env2.sdMolSupplier →
      ReadMolFromSDF env fs f = ReadMolFromSDF env2 fs f) ∧
    (env.molFromMolBlock = env2.molFromMolBlock →
      ReadMolFromMOL env fs f = ReadMolFromMOL env2 fs f) ∧
    (env.molFromSmiles = env2.molFromSmiles →
      ReadMolFromSmile env smi = ReadMolFromSmile env2 smi) ∧
    (env.molFromSmiles = env2.molFromSmiles →
      env.pybelReadString = env2.pybelReadString →
      env.pybelWrite = env2.pybelWrite →
      ReadMolFromInchi env inchi = ReadMolFromInchi env2 inchi) := by
  refine ⟨?_, ?_, rfl, ?_, ?_, ?_, ?_, ?_⟩
  · intro h
    simp [ReadMolFromSDF, h]
  · intro h
    simp [ReadMolFromMOL, chemMolFromMolFile, h]
  · intro t ht
    simp [ReadMolFromInchi, ht]
  · intro h
    cases hf : fsGet fs f <;> simp [ReadMolFromSDF, hf, h]
  · intro h
    cases hf : fsGet fs f <;> simp [ReadMolFromMOL, chemMolFromMolFile, hf, h]
  · intro h
    simp [ReadMolFromSmile, h]
  · intro h1 h2 h3
    simp only [ReadMolFromInchi, h1, h2, h3]

/-- Closed instance of C7 at a concrete oracle (with `envNoNet` sharing
the toolkits of `envRich` but not its network). -/
theorem c7_readers_defer_to_toolkits_witness :
    ReadMolFromSDF envRich [("f.mol", "X")] "f.mol" =
      .ok (envRich.sdMolSupplier "X") ∧
    ReadMolFromMOL envRich [("f.mol", "X")] "f.mol" =
      .ok (envRich.molFromMolBlock "X") ∧
    ReadMolFromInchi envRich "InChI=1S/H2O/h1H2" =
      .ok (envRich.molFromSmiles
        (pstrip (envRich.pybelWrite (("InChI=1S/H2O/h1H2" : String).length) "smi"))) ∧
    ReadMolFromSDF envRich [("f.mol", "X")] "f.mol" =
      ReadMolFromSDF envNoNet [("f.mol", "X")] "f.mol" ∧
    ReadMolFromMOL envRich [("f.mol", "X")] "f.mol" =
      ReadMolFromMOL envNoNet [("f.mol", "X")] "f.mol" ∧
    ReadMolFromSmile envRich "CCO" = ReadMolFromSmile envNoNet "CCO" ∧
    ReadMolFromInchi envRich "InChI=1S/H2O/h1H2" =
      ReadMolFromInchi envNoNet "InChI=1S/H2O/h1H2" := by
  have h := c7_readers_defer_to_toolkits Nat Nat envRich envNoNet
    [("f.mol", "X")] "f.mol" "CCO" "InChI=1S/H2O/h1H2" "X"
  exact ⟨h.1 (by decide), h.2.1 (by decide),
    h.2.2.2.1 (("InChI=1S/H2O/h1H2" : String).length) (by decide),
    h.2.2.2.2.1 rfl, h.2.2.2.2.2.1 rfl, h.2.2.2.2.2.2.1 rfl,
    h.2.2.2.2.2.2.2 rfl rfl rfl⟩

/-- C8: `GetMolFromDrugbank` raises ValueError exactly when the
downloaded file is empty or RDKit fails to parse it, and in the
parse-failure case the `temp.sdf` it wrote (with exactly the downloaded
content) is left in the working directory, since the deletion happens
only on the success path. -/
theorem c8_drugbank_valueerror_iff (M PM : Type) (env : Env M PM)
    (fs : FS) (s : String) :
    (isValueError (GetMolFromDrugbank env fs s).result = true ↔
      ((dlDrugbank env s).length = 0 ∨
        env.molFromMolBlock (dlDrugbank env s) = none)) ∧
    ((dlDrugbank env s).length ≠ 0 →
      env.molFromMolBlock (dlDrugbank env s) = none →
      fsGet (GetMolFromDrugbank env fs s).fs "temp.sdf" = some (dlDrugbank env s)) := by
  simp only [GetMolFromDrugbank_eq, dlDrugbank]
  by_cases h0 : (String.join (env.http (drugbankUrl (pstrip s)))).length = 0
  · simp only [if_pos h0]
    constructor
    · exact ⟨fun _ => Or.inl h0, fun _ => rfl⟩
    · intro h
      exact absurd h0 h
  · simp only [if_neg h0]
    cases hm : env.molFromMolBlock (String.join (env.http (drugbankUrl (pstrip s))))
    · refine ⟨⟨fun _ => Or.inr rfl, fun _ => rfl⟩, fun _ _ => ?_⟩
      exact fsGet_fsWrite fs "temp.sdf" _
    · constructor
      · constructor
        · intro h
          simp [isValueError] at h
        · intro h
          rcases h with h | h
          · exact absurd h h0
          · exact absurd h (by simp [hm])
      · intro _ h
        exact absurd h (by simp)

/-- Closed instance of C8: nonempty download that RDKit cannot parse:
ValueError is raised and `temp.sdf` stays behind with the downloaded
content. -/
theorem c8_drugbank_valueerror_iff_witness :
    (dlDrugbank envBadParse "DB00133").length ≠ 0 ∧
    isValueError (GetMolFromDrugbank envBadParse [] "DB00133").result = true ∧
    fsGet (GetMolFromDrugbank envBadParse [] "DB00133").fs "temp.sdf" =
      some (dlDrugbank envBadParse "DB00133") :=
  ⟨by decide,
    (c8_drugbank_valueerror_iff Nat Nat envBadParse [] "DB00133").1.mpr (Or.inr rfl),
    (c8_drugbank_valueerror_iff Nat Nat envBadParse [] "DB00133").2 (by decide) rfl⟩

/-- C9: `ReadMolFromMOL` and `ReadMolFromMol` compute the same
function: on every oracle, working directory and filename both return
exactly the embedded `Chem.MolFromMolFile(filename)`. -/
theorem c9_mol_readers_identical (M PM : Type) (env : Env M PM)
    (fs : FS) (f : String) :
    ReadMolFromMOL env fs f = chemMolFromMolFile env fs f ∧
    ReadMolFromMol env fs f = chemMolFromMolFile env fs f ∧
    ReadMolFromMOL env fs f = ReadMolFromMol env fs f :=
  ⟨rfl, rfl, rfl⟩

/-- C10: string inputs are invariant under surrounding whitespace:
`ReadMolFromSmile`, `GetMolFromCAS`, `GetMolFromNCBI` and
`GetMolFromDrugbank` each strip their input first, so stripping the
argument, or padding it with leading and trailing whitespace, does not
change the call's outcome.  (`GetMolFromKegg` does not strip.) -/
theorem c10_whitespace_invariance (M PM : Type) (env : Env M PM)
    (fs : FS) (s p q : String) :
    (ReadMolFromSmile env s = ReadMolFromSmile env (pstrip s) ∧
     GetMolFromCAS env fs s = GetMolFromCAS env fs (pstrip s) ∧
     GetMolFromNCBI env fs s = GetMolFromNCBI env fs (pstrip s) ∧
     GetMolFromDrugbank env fs s = GetMolFromDrugbank env fs (pstrip s)) ∧
    (wsOnly p = true → wsOnly q = true →
      ReadMolFromSmile env (p ++ s ++ q) = ReadMolFromSmile env s ∧
      GetMolFromCAS env fs (p ++ s ++ q) = GetMolFromCAS env fs s ∧
      GetMolFromNCBI env fs (p ++ s ++ q) = GetMolFromNCBI env fs s ∧
      GetMolFromDrugbank env fs (p ++ s ++ q) = GetMolFromDrugbank env fs s) := by
  constructor
  · exact ⟨by simp only [ReadMolFromSmile, pstrip_idem],
      by simp only [GetMolFromCAS, pstrip_idem],
      by simp only [GetMolFromNCBI, pstrip_idem],
      by simp only [GetMolFromDrugbank, pstrip_idem]⟩
  · intro hp hq
    exact ⟨by simp only [ReadMolFromSmile, pstrip_pad p s q hp hq],
      by simp only [GetMolFromCAS, pstrip_pad p s q hp hq],
      by simp only [GetMolFromNCBI, pstrip_pad p s q hp hq],
      by simp only [GetMolFromDrugbank, pstrip_pad p s q hp hq]⟩

/-- Closed instance of C10: whitespace padding around the ID or the
SMILES string leaves the outcomes unchanged at a concrete oracle. -/
theorem c10_whitespace_invariance_witness :
    wsOnly " \t" = true ∧ wsOnly "\n " = true ∧
    GetMolFromDrugbank envRich [] (" \t" ++ "DB00133" ++ "\n ") =
      GetMolFromDrugbank envRich [] "DB00133" ∧
    ReadMolFromSmile envRich (" \t" ++ "CCO" ++ "\n ") =
      ReadMolFromSmile envRich "CCO" :=
  ⟨by decide, by decide,
    ((c10_whitespace_invariance Nat Nat envRich [] "DB00133" " \t" "\n ").2
      (by decide) (by decide)).2.2.2,
    ((c10_whitespace_invariance Nat Nat envRich [] "CCO" " \t" "\n ").2
      (by decide) (by decide)).1⟩
